import Mathlib

/-!
# Verification of the budgetml provisioning workflow

A shallow embedding of `budgetml/main.py` and the `budgetml/gcp` helpers.
Python strings are Lean `String`s, `None`-able parameters are `Option`s,
the filesystem is a partial map from paths to contents, the cloud control
plane is modelled by an explicit trace of resource-creating events, and
the static-IP allocator is an abstract function from names to addresses.
-/

namespace BudgetML

/-- Worker for Python `str.replace`: with `skip = 0` scan for the pattern
at the head (a hit emits the replacement and skips the rest of the matched
characters), a positive `skip` drops already-matched characters. -/
def pyReplaceGo (pat rep : List Char) : Nat → List Char → List Char
  | _, [] => []
  | Nat.succ k, _ :: rest => pyReplaceGo pat rep k rest
  | 0, c :: rest =>
    if pat ≠ [] ∧ pat.isPrefixOf (c :: rest) then
      rep ++ pyReplaceGo pat rep (pat.length - 1) rest
    else
      c :: pyReplaceGo pat rep 0 rest

/-- Python `str.replace(old, new)` on character lists: scan left to right,
replace each non-overlapping occurrence of `pat` by `rep`.  The source only
calls it with non-empty patterns (`"$BASE_IMAGE"`, `"_"`); for an empty
pattern this model is the identity. -/
def pyReplace (pat rep l : List Char) : List Char :=
  pyReplaceGo pat rep 0 l

/-- Python `str.replace` lifted to `String`. -/
def pyReplaceStr (s pat rep : String) : String :=
  ⟨pyReplace pat.data rep.data s.data⟩

/-- Python `'\n'.join(items)` (used for the `requirements` list branch). -/
def joinLines : List String → String
  | [] => ""
  | [x] => x
  | x :: xs => x ++ "\n" ++ joinLines xs

/-- Split a character list at newline characters; the inverse view used to
count the lines of a rendered requirements file. -/
def splitLines : List Char → List (List Char)
  | [] => [[]]
  | c :: rest =>
    let r := splitLines rest
    if c = '\n' then [] :: r
    else (c :: r.headD []) :: r.tail

/-- Boolean substring test: does `pat` occur inside `l`? -/
def containsSub (pat : List Char) : List Char → Bool
  | [] => pat.isEmpty
  | c :: rest => pat.isPrefixOf (c :: rest) || containsSub pat rest

theorem containsSub_iff (pat : List Char) :
    ∀ l : List Char, containsSub pat l = true ↔ pat <:+: l := by
  intro l
  induction l with
  | nil =>
    simp [containsSub, List.isEmpty_iff, List.infix_nil]
  | cons c rest ih =>
    simp only [containsSub, Bool.or_eq_true, List.isPrefixOf_iff_prefix, ih,
      List.infix_cons_iff]

theorem containsSub_of_append (pat pre suf : List Char) :
    containsSub pat (pre ++ pat ++ suf) = true := by
  rw [containsSub_iff]
  exact ⟨pre, suf, by simp⟩

theorem splitLines_append (a : List Char) (rest : List Char)
    (h : '\n' ∉ a) : splitLines (a ++ '\n' :: rest) = a :: splitLines rest := by
  induction a with
  | nil => simp [splitLines]
  | cons c a ih =>
    have hc : c ≠ '\n' := fun hc => h (hc ▸ List.mem_cons_self c a)
    have ha : '\n' ∉ a := fun hm => h (List.mem_cons_of_mem c hm)
    simp [splitLines, hc, ih ha]

theorem splitLines_no_newline (a : List Char) (h : '\n' ∉ a) :
    splitLines a = [a] := by
  induction a with
  | nil => rfl
  | cons c a ih =>
    have hc : c ≠ '\n' := fun hc => h (hc ▸ List.mem_cons_self c a)
    have ha : '\n' ∉ a := fun hm => h (List.mem_cons_of_mem c hm)
    simp [splitLines, hc, ih ha]

theorem data_joinLines_cons (x : String) (y : String) (xs : List String) :
    (joinLines (x :: y :: xs)).data = x.data ++ '\n' :: (joinLines (y :: xs)).data := by
  show (x ++ "\n" ++ joinLines (y :: xs)).data = _
  simp [String.data_append]

/-- Joining a non-empty list of newline-free items and splitting again on
newlines recovers exactly the items, in order. -/
theorem splitLines_joinLines (l : List String) (hne : l ≠ [])
    (h : ∀ x ∈ l, '\n' ∉ x.data) :
    splitLines (joinLines l).data = l.map String.data := by
  induction l with
  | nil => exact absurd rfl hne
  | cons x xs ih =>
    cases xs with
    | nil =>
      simp [joinLines, splitLines_no_newline x.data (h x (by simp))]
    | cons y ys =>
      rw [data_joinLines_cons]
      rw [splitLines_append _ _ (h x (by simp))]
      have := ih (by simp) (fun z hz => h z (List.mem_cons_of_mem x hz))
      simp [this]

/-! ## Base64 (model of Python `base64.b64encode` / `base64.b64decode`)

`launch` base64-encodes the four rendered template payloads before passing
them as instance metadata (`main.py` lines 343-351); the startup script
decodes them with `base64 --decode`.  Bytes are `Nat`s below 256. -/

/-- The RFC 4648 base64 alphabet. -/
def b64chars : List Char :=
  "ABCDEFGHIJKLMNOPQRSTUVWXYZabcdefghijklmnopqrstuvwxyz0123456789+/".data

/-- The character for a six-bit group. -/
def b64char (n : Nat) : Char := b64chars.getD n 'A'

def b64idxAux : List Char → Char → Nat → Option Nat
  | [], _, _ => none
  | x :: xs, c, i => if x = c then some i else b64idxAux xs c (i + 1)

/-- The six-bit value of an alphabet character (`none` for `'='` and other
non-alphabet characters). -/
def b64idx (c : Char) : Option Nat := b64idxAux b64chars c 0

/-- Base64-encode a byte list: three bytes become four characters, a final
one- or two-byte group is padded with `'='`. -/
def b64encode : List Nat → List Char
  | b1 :: b2 :: b3 :: rest =>
    b64char (b1 / 4) :: b64char (b1 % 4 * 16 + b2 / 16) ::
      b64char (b2 % 16 * 4 + b3 / 64) :: b64char (b3 % 64) :: b64encode rest
  | [b1, b2] =>
    [b64char (b1 / 4), b64char (b1 % 4 * 16 + b2 / 16), b64char (b2 % 16 * 4), '=']
  | [b1] => [b64char (b1 / 4), b64char (b1 % 4 * 16), '=', '=']
  | [] => []

/-- Base64-decode: four characters become three bytes, with the two padded
final-group forms; anything malformed is `none`. -/
def b64decode : List Char → Option (List Nat)
  | [] => some []
  | c1 :: c2 :: c3 :: c4 :: rest =>
    match b64idx c1, b64idx c2 with
    | some s1, some s2 =>
      if c3 = '=' then
        if c4 = '=' ∧ rest = [] then some [s1 * 4 + s2 / 16] else none
      else
        match b64idx c3 with
        | some s3 =>
          if c4 = '=' then
            if rest = [] then some [s1 * 4 + s2 / 16, s2 % 16 * 16 + s3 / 4]
            else none
          else
            match b64idx c4 with
            | some s4 =>
              (b64decode rest).map (fun bs =>
                (s1 * 4 + s2 / 16) :: (s2 % 16 * 16 + s3 / 4) ::
                  (s3 % 4 * 64 + s4) :: bs)
            | none => none
        | none => none
    | _, _ => none
  | _ => none

theorem b64idx_b64char : ∀ s < 64, b64idx (b64char s) = some s := by decide

theorem b64char_ne_pad : ∀ s < 64, b64char s ≠ '=' := by decide

/-- Base64 round-trip on byte lists. -/
theorem b64_roundtrip : ∀ l : List Nat, (∀ b ∈ l, b < 256) →
    b64decode (b64encode l) = some l
  | [], _ => rfl
  | [b1], h => by
    have h1 : b1 < 256 := h b1 (by simp)
    have e1 := b64idx_b64char (b1 / 4) (by omega)
    have e2 := b64idx_b64char (b1 % 4 * 16) (by omega)
    simp [b64encode, b64decode, e1, e2,
      b64char_ne_pad (b1 / 4) (by omega)]
    omega
  | [b1, b2], h => by
    have h1 : b1 < 256 := h b1 (by simp)
    have h2 : b2 < 256 := h b2 (by simp)
    have e1 := b64idx_b64char (b1 / 4) (by omega)
    have e2 := b64idx_b64char (b1 % 4 * 16 + b2 / 16) (by omega)
    have e3 := b64idx_b64char (b2 % 16 * 4) (by omega)
    simp [b64encode, b64decode, e1, e2, e3,
      b64char_ne_pad (b1 / 4) (by omega),
      b64char_ne_pad (b2 % 16 * 4) (by omega)]
    omega
  | b1 :: b2 :: b3 :: rest, h => by
    have h1 : b1 < 256 := h b1 (by simp)
    have h2 : b2 < 256 := h b2 (by simp)
    have h3 : b3 < 256 := h b3 (by simp)
    have ih := b64_roundtrip rest
      (fun b hb => h b (by simp at hb ⊢; tauto))
    have e1 := b64idx_b64char (b1 / 4) (by omega)
    have e2 := b64idx_b64char (b1 % 4 * 16 + b2 / 16) (by omega)
    have e3 := b64idx_b64char (b2 % 16 * 4 + b3 / 64) (by omega)
    have e4 := b64idx_b64char (b3 % 64) (by omega)
    simp [b64encode, b64decode, e1, e2, e3, e4,
      b64char_ne_pad (b2 % 16 * 4 + b3 / 64) (by omega),
      b64char_ne_pad (b3 % 64) (by omega), ih]
    omega

/-! ## UTF-8 (model of Python `str.encode()` / `bytes.decode()`) -/

/-- The UTF-8 byte sequence of one character. -/
def utf8Bytes (c : Char) : List Nat :=
  let n := c.toNat
  if n < 128 then [n]
  else if n < 2048 then [192 + n / 64, 128 + n % 64]
  else if n < 65536 then [224 + n / 4096, 128 + n / 64 % 64, 128 + n % 64]
  else [240 + n / 262144, 128 + n / 4096 % 64, 128 + n / 64 % 64, 128 + n % 64]

/-- The UTF-8 byte sequence of a string (Python `s.encode()`). -/
def strBytes (s : String) : List Nat := (s.data.map utf8Bytes).flatten

theorem utf8Bytes_lt (c : Char) : ∀ b ∈ utf8Bytes c, b < 256 := by
  have hv : c.toNat < 55296 ∨ (57343 < c.toNat ∧ c.toNat < 1114112) := c.valid
  intro b hb
  simp only [utf8Bytes] at hb
  split at hb <;> [skip; split at hb] <;> [skip; skip; split at hb] <;>
    simp at hb <;> omega

theorem strBytes_lt (s : String) : ∀ b ∈ strBytes s, b < 256 := by
  intro b hb
  simp only [strBytes, List.mem_flatten, List.mem_map] at hb
  obtain ⟨l, ⟨c, _, rfl⟩, hbl⟩ := hb
  exact utf8Bytes_lt c b hbl

/-- The encoding step of `launch` for one metadata payload:
`base64.b64encode(content.encode()).decode()` (`main.py` lines 343-351). -/
def encodePayload (s : String) : String := ⟨b64encode (strBytes s)⟩

/-! ## Data model of `budgetml/main.py`

The filesystem is a partial map `String → Option String` (a read of a
missing file fails, propagating as `none`), the static-IP allocator is an
abstract `String → String` from IP names to addresses, and the
fresh session token drawn by `create_start_up` is an explicit input. -/

/-- Modelled from the spec: `budgetml.constants.BUDGETML_BASE_IMAGE_NAME`
(the base image reference substituted for the `$BASE_IMAGE` placeholder);
`constants.py` is not under `src/`, so the value is an opaque name. -/
def BUDGETML_BASE_IMAGE_NAME : String := "budgetml/base"

/-- Path of the default Dockerfile template, relative to the package dir. -/
def template_dockerfile_path : String := "budgetml/template.Dockerfile"

/-- Path of the default compose template. -/
def template_compose_path : String := "budgetml/template-compose.yaml"

/-- Path of the default reverse-proxy config template. -/
def template_nginx_path : String := "budgetml/template-nginx.conf"

/-- `BudgetML.get_docker_file_contents` (`main.py` lines 67-77): read the
given path, or the packaged template when the caller passed `None`, and
substitute the `$BASE_IMAGE` placeholder. -/
def get_docker_file_contents (fs : String → Option String)
    (dockerfile_path : Option String) : Option String :=
  let path := dockerfile_path.getD template_dockerfile_path
  (fs path).map (fun c => pyReplaceStr c "$BASE_IMAGE" BUDGETML_BASE_IMAGE_NAME)

/-- `BudgetML.get_requirements_file_contents` (`main.py` lines 79-85):
empty string for `None`, otherwise the file contents verbatim. -/
def get_requirements_file_contents (fs : String → Option String)
    (requirements_path : Option String) : Option String :=
  match requirements_path with
  | none => some ""
  | some p => fs p

/-- The `requirements` parameter of `launch` / `launch_local`:
`Union[Text, List]` defaulting to `None`. -/
inductive Requirements where
  | nothing
  | path (p : String)
  | list (items : List String)

/-- The requirements branch shared by `launch` (lines 334-338) and
`launch_local` (lines 405-409): a list is joined with newlines, anything
else goes through `get_requirements_file_contents`. -/
def requirements_contents (fs : String → Option String) :
    Requirements → Option String
  | .list items => some (joinLines items)
  | .path p => get_requirements_file_contents fs (some p)
  | .nothing => get_requirements_file_contents fs none

/-- `BudgetML.get_docker_compose_contents` (`main.py` lines 87-94) with the
default template path. -/
def get_docker_compose_contents (fs : String → Option String) : Option String :=
  fs template_compose_path

/-- `BudgetML.get_nginx_conf_contents` (`main.py` lines 96-109) with the
default template path: substitutes `$BUDGET_DOMAIN` by `subdomain.domain`. -/
def get_nginx_conf_contents (fs : String → Option String)
    (domain subdomain : String) : Option String :=
  (fs template_nginx_path).map
    (fun c => pyReplaceStr c "$BUDGET_DOMAIN" (subdomain ++ "." ++ domain))

/-- The mutable fields of a `BudgetML` client (`main.py` lines 40-44). -/
structure Client where
  project : Option String
  zone : String
  unique_id : String
  region : String
  static_ip : Option String
  deriving DecidableEq

/-- One resource-creating call against an external collaborator, in the
order `launch` issues them. -/
inductive Event where
  | createStaticIP (name : String)
  | createBucket (name : String)
  | uploadBlob (bucket : String) (dest : String)
  | createTopic (name : String)
  | uploadFunctionSource
  | createFunction (name : String)
  | createSchedulerJob (topic : String)
  | createInstance (name : String)
  deriving DecidableEq

def Event.isCreateStaticIP : Event → Bool
  | .createStaticIP _ => true
  | _ => false

def Event.isCreateInstance : Event → Bool
  | .createInstance _ => true
  | _ => false

/-- The user-supplied predictor class, reduced to what `inspect` extracts:
its source file and its class name. -/
structure Predictor where
  file_path : String
  entrypoint : String

/-- External collaborators of a launch: the filesystem, the static-IP
allocator, and the `uuid4` drawn for `BUDGET_TOKEN` in the startup
script. -/
structure Env where
  fs : String → Option String
  alloc : String → String
  token : String

/-- `predictors/{unique_id}/{entrypoint}.py` (`main.py` line 122). -/
def predictor_gcs_path (unique_id entrypoint : String) : String :=
  "predictors/" ++ unique_id ++ "/" ++ entrypoint ++ ".py"

/-- `BudgetML.create_start_up` (`main.py` lines 111-229): uploads the
predictor file to the bucket, then assembles the VM startup script.
Returns the issued events together with the script text. -/
def create_start_up (unique_id token : String) (predictor : Predictor)
    (bucket domain subdomain username password : String) :
    List Event × String :=
  let entrypoint := predictor.entrypoint
  let gcs_path := predictor_gcs_path unique_id entrypoint
  let script :=
    "#!/bin/bash\n" ++
    "sudo -s\n" ++
    "mkdir /home/budgetml\n" ++
    "cd /home/budgetml\n" ++
    "export DOCKER_TEMPLATE=$(curl http://metadata.google.internal/computeMetadata/v1/instance/attributes/DOCKER_TEMPLATE -H \"Metadata-Flavor: Google\")\n" ++
    "export REQUIREMENTS=$(curl http://metadata.google.internal/computeMetadata/v1/instance/attributes/REQUIREMENTS -H \"Metadata-Flavor: Google\")\n" ++
    "export DOCKER_COMPOSE_TEMPLATE=$(curl http://metadata.google.internal/computeMetadata/v1/instance/attributes/DOCKER_COMPOSE_TEMPLATE -H \"Metadata-Flavor: Google\")\n" ++
    "export NGINX_CONF_TEMPLATE=$(curl http://metadata.google.internal/computeMetadata/v1/instance/attributes/NGINX_CONF_TEMPLATE -H \"Metadata-Flavor: Google\")\n" ++
    "rm /home/budgetml/template.Dockerfile\n" ++
    "rm /home/budgetml/custom_requirements.txt\n" ++
    "rm /home/budgetml/docker-compose.yaml\n" ++
    "rm /home/budgetml/nginx.conf\n" ++
    "echo $DOCKER_TEMPLATE | base64 --decode >> /home/budgetml/template.Dockerfile\n" ++
    "echo $REQUIREMENTS | base64 --decode >> /home/budgetml/custom_requirements.txt\n" ++
    "echo $DOCKER_COMPOSE_TEMPLATE | base64 --decode >> /home/budgetml/docker-compose.yaml\n" ++
    "echo $NGINX_CONF_TEMPLATE | base64 --decode >> /home/budgetml/nginx.conf\n" ++
    "export BUDGET_PREDICTOR_PATH=gs://" ++ bucket ++ "/" ++ gcs_path ++ "\n" ++
    "export BUDGET_PREDICTOR_ENTRYPOINT=" ++ entrypoint ++ "\n" ++
    "export BUDGET_DOMAIN=" ++ domain ++ "\n" ++
    "export BUDGET_USERNAME=" ++ username ++ "\n" ++
    "export BUDGET_PWD=" ++ password ++ "\n" ++
    "export BUDGET_SUBDOMAIN=" ++ subdomain ++ "\n" ++
    "export BUDGET_NGINX_PATH=/home/budgetml/nginx.conf\n" ++
    "export BUDGET_CERTS_PATH=/home/budgetml/certs/\n" ++
    "export BASE_IMAGE=" ++ BUDGETML_BASE_IMAGE_NAME ++ "\n" ++
    "export BUDGET_TOKEN=" ++ token ++ "\n" ++
    "if [ -x \"$(command -v docker)\" ]; then\n" ++
    "    echo \"Docker already installed\"\n" ++
    "else\n" ++
    "    sudo apt-get update\n" ++
    "    sudo apt-get -y install apt-transport-https ca-certificates curl gnupg-agent software-properties-common\n" ++
    "    curl -fsSL https://download.docker.com/linux/ubuntu/gpg | sudo apt-key add -\n" ++
    "    sudo add-apt-repository \"deb [arch=amd64] https://download.docker.com/linux/ubuntu $(lsb_release -cs) stable\"\n" ++
    "    sudo apt-get update\n" ++
    "    sudo apt-get -y install docker-ce docker-ce-cli containerd.io\n" ++
    "fi\n" ++
    "docker run -e BUDGET_PREDICTOR_PATH=$BUDGET_PREDICTOR_PATH -e BUDGET_PREDICTOR_ENTRYPOINT=$BUDGET_PREDICTOR_ENTRYPOINT -e BUDGET_USERNAME=$BUDGET_USERNAME -e BUDGET_PWD=$BUDGET_PWD -e BUDGET_DOMAIN=$BUDGET_DOMAIN -e BUDGET_SUBDOMAIN=$BUDGET_SUBDOMAIN -e BUDGET_NGINX_PATH=$BUDGET_NGINX_PATH -e BUDGET_CERTS_PATH=$BUDGET_CERTS_PATH -e BASE_IMAGE=$BASE_IMAGE -e BUDGET_TOKEN=$BUDGET_TOKEN --rm -v /var/run/docker.sock:/var/run/docker.sock -v \"$PWD:$PWD\" -w=\"$PWD\" docker/compose:1.24.0 up -d\n" ++
    "docker pull google/cloud-sdk:324.0.0\n"
  ([Event.uploadBlob bucket gcs_path], script)

/-- The prefix of the shutdown script before the topic name. -/
def shutdownHead : String :=
  "#!/bin/bash\n" ++
  "sudo -s\n" ++
  "cd /tmp\n" ++
  "echo \"+++ Running shutdown script +++\"\n" ++
  "docker run -it google/cloud-sdk:324.0.0 gcloud pubsub topics publish "

/-- The suffix of the shutdown script after the topic name. -/
def shutdownTail : String := " --message \"\x7b\x7d\""

/-- `BudgetML.create_shut_down` (`main.py` lines 231-240): the shutdown
script publishes an empty message to the given topic. -/
def create_shut_down (topic : String) : String :=
  shutdownHead ++ topic ++ shutdownTail

/-- `BudgetML.create_cloud_function` (`main.py` lines 242-252) together
with `gcp/function.py` `create_cloud_function` (lines 46-83): first the
pubsub topic is created, then the watchdog source is uploaded, then the
function itself is registered. Returns the events and the function name. -/
def create_cloud_function (instance_name topic : String) :
    List Event × String :=
  let function_name := "function-" ++ instance_name
  ([Event.createTopic topic, Event.uploadFunctionSource,
    Event.createFunction function_name], function_name)

/-- The parameters of `BudgetML.launch` (`main.py` lines 257-269), with the
source's non-random defaults. -/
structure LaunchArgs where
  predictor : Predictor
  domain : String
  subdomain : String := "budget"
  username : String := "budget"
  password : String
  requirements : Requirements := .nothing
  dockerfile_path : Option String := none
  bucket_name : Option String := none
  instance_name : Option String := none
  machine_type : String := "e2-medium"
  preemptible : Bool := true
  static_ip : Option String := none

/-- Everything a successful `launch` produced: the updated client, the
ordered trace of external calls, the derived names, the scripts, and the
four base64-encoded metadata payloads. -/
structure LaunchResult where
  client : Client
  trace : List Event
  bucket_name : String
  instance_name : String
  static_ip_name : String
  topic : String
  function_name : String
  static_ip_used : String
  startup_script : String
  shutdown_script : String
  requirements_metadata : String
  docker_metadata : String
  compose_metadata : String
  nginx_metadata : String
  username : String
  password : String

/-- The `bucket_name` after defaulting (`main.py` lines 287-288). -/
def launchBucketName (c : Client) (a : LaunchArgs) : String :=
  a.bucket_name.getD ("budget_bucket_" ++ c.unique_id)

/-- The `instance_name` after defaulting (`main.py` lines 289-291). -/
def launchInstanceName (c : Client) (a : LaunchArgs) : String :=
  a.instance_name.getD ("budget-instance-" ++ pyReplaceStr c.unique_id "_" "-")

/-- `static_ip_name = f'ip-{instance_name}'` (`main.py` line 293). -/
def launchStaticIpName (c : Client) (a : LaunchArgs) : String :=
  "ip-" ++ launchInstanceName c a

/-- `topic = f'topic-{instance_name}'` (`main.py` line 304). -/
def launchTopic (c : Client) (a : LaunchArgs) : String :=
  "topic-" ++ launchInstanceName c a

/-- The static-IP events of `launch` (`main.py` lines 295-298): allocate
under the derived name when the caller supplied no address. -/
def launchIpEvents (c : Client) (a : LaunchArgs) : List Event :=
  match a.static_ip with
  | none => [Event.createStaticIP (launchStaticIpName c a)]
  | some _ => []

/-- The address `self.static_ip` holds after lines 295-298: the allocated
address, or the caller-supplied one. -/
def launchStaticIpUsed (env : Env) (c : Client) (a : LaunchArgs) : String :=
  match a.static_ip with
  | none => env.alloc (launchStaticIpName c a)
  | some s => s

/-- The result a successful `launch` assembles, given the four rendered
file contents. -/
def launchResultOf (env : Env) (c : Client) (a : LaunchArgs)
    (docker_c reqs_c compose_c nginx_c : String) : LaunchResult :=
  let bucket_name := launchBucketName c a
  let instance_name := launchInstanceName c a
  let topic := launchTopic c a
  let fnPair := create_cloud_function instance_name topic
  let upPair := create_start_up c.unique_id env.token a.predictor
    bucket_name a.domain a.subdomain a.username a.password
  { client := { c with static_ip := some (launchStaticIpUsed env c a) }
    trace := launchIpEvents c a ++ [Event.createBucket bucket_name] ++
      fnPair.1 ++ [Event.createSchedulerJob topic] ++ upPair.1 ++
      [Event.createInstance instance_name]
    bucket_name := bucket_name
    instance_name := instance_name
    static_ip_name := launchStaticIpName c a
    topic := topic
    function_name := fnPair.2
    static_ip_used := launchStaticIpUsed env c a
    startup_script := upPair.2
    shutdown_script := create_shut_down topic
    requirements_metadata := encodePayload reqs_c
    docker_metadata := encodePayload docker_c
    compose_metadata := encodePayload compose_c
    nginx_metadata := encodePayload nginx_c
    username := a.username
    password := a.password }

/-- `BudgetML.launch` (`main.py` lines 257-373).  Fails (`none`) exactly
when one of the four template/file reads fails; the trace records the
resource-creating calls of a successful launch in source order: static IP
(unless supplied), bucket, topic + function-source upload + function,
scheduler job, predictor upload, and the compute instance last. -/
def launch (env : Env) (c : Client) (a : LaunchArgs) : Option LaunchResult :=
  match get_docker_file_contents env.fs a.dockerfile_path,
      requirements_contents env.fs a.requirements,
      get_docker_compose_contents env.fs,
      get_nginx_conf_contents env.fs a.domain a.subdomain with
  | some docker_c, some reqs_c, some compose_c, some nginx_c =>
    some (launchResultOf env c a docker_c reqs_c compose_c nginx_c)
  | _, _, _, _ => none

/-- Inversion for a successful `launch`: the four reads succeeded and the
result is the assembled record. -/
theorem launch_some (env : Env) (c : Client) (a : LaunchArgs)
    (r : LaunchResult) (h : launch env c a = some r) :
    ∃ d q p n,
      get_docker_file_contents env.fs a.dockerfile_path = some d ∧
      requirements_contents env.fs a.requirements = some q ∧
      get_docker_compose_contents env.fs = some p ∧
      get_nginx_conf_contents env.fs a.domain a.subdomain = some n ∧
      r = launchResultOf env c a d q p n := by
  unfold launch at h
  split at h
  · rename_i d q p n hd hq hp hn
    exact ⟨d, q, p, n, hd, hq, hp, hn, (Option.some_injective _ h).symm⟩
  · exact absurd h (by simp)

/-- What a successful `launch_local` produced. -/
structure LocalResult where
  client : Client
  bucket_name : String
  requirements_content : String
  docker_content : String
  environment : List String
  username : String
  password : String

/-- `BudgetML.launch_local` (`main.py` lines 375-507): bucket default and
creation, Dockerfile and requirements rendering to the local scratch
directory, image build, predictor upload, and the container environment
(lines 468-475). -/
def launch_local (env : Env) (c : Client) (predictor : Predictor)
    (requirements : Requirements) (dockerfile_path : Option String)
    (bucket_name : Option String) (username password : String) :
    Option LocalResult :=
  let bucket := bucket_name.getD ("budget_bucket_" ++ c.unique_id)
  match get_docker_file_contents env.fs dockerfile_path,
      requirements_contents env.fs requirements with
  | some docker_c, some reqs_c =>
    let gcs_path := predictor_gcs_path c.unique_id predictor.entrypoint
    some {
      client := c
      bucket_name := bucket
      requirements_content := reqs_c
      docker_content := docker_c
      environment := [
        "BUDGET_PREDICTOR_PATH=gs://" ++ bucket ++ "/" ++ gcs_path,
        "BUDGET_PREDICTOR_ENTRYPOINT=" ++ predictor.entrypoint,
        "BUDGET_USERNAME=" ++ username,
        "BUDGET_PWD=" ++ password,
        "GOOGLE_APPLICATION_CREDENTIALS=/app/sa.json",
        "BUDGET_TOKEN=" ++ env.token]
      username := username
      password := password }
  | _, _ => none

/-! ## Python default-argument semantics (for the random defaults)

Python evaluates a default parameter expression once, when the enclosing
`def` is executed, not on every call.  `main.py` contains three
`str(uuid4())` default expressions, evaluated in source order while the
class body is defined: `BudgetML.__init__`'s `unique_id` (line 28),
`BudgetML.launch`'s `password` (line 262) and `BudgetML.launch_local`'s
`password` (line 381).  The stream `gen` supplies successive `uuid4`
draws; the embedding makes the single definition-time draw explicit. -/

/-- The three values bound to the `str(uuid4())` defaults when the class
body of `main.py` is executed. -/
structure ModuleDefaults where
  init_unique_id : String
  launch_password : String
  launch_local_password : String

/-- Executing the class body draws `gen 0`, `gen 1`, `gen 2` in source
order. -/
def moduleDefaults (gen : Nat → String) : ModuleDefaults :=
  ⟨gen 0, gen 1, gen 2⟩

/-- The `unique_id` held by the client produced by the `invocation`-th
construction of `BudgetML` with `unique_id` argument `arg`.  The
invocation index is not consulted: the default was bound once. -/
def clientUniqueId (gen : Nat → String) (_invocation : Nat)
    (arg : Option String) : String :=
  arg.getD (moduleDefaults gen).init_unique_id

/-- The password used by the `invocation`-th call of `launch` with
`password` argument `arg`. -/
def launchPasswordOf (gen : Nat → String) (_invocation : Nat)
    (arg : Option String) : String :=
  arg.getD (moduleDefaults gen).launch_password

/-- The password used by the `invocation`-th call of `launch_local` with
`password` argument `arg`. -/
def launchLocalPasswordOf (gen : Nat → String) (_invocation : Nat)
    (arg : Option String) : String :=
  arg.getD (moduleDefaults gen).launch_local_password

/-! ## `gcp/storage.py` -/

/-- The one error the storage control plane reports here:
`google.cloud.exceptions.Conflict`, raised by `create_bucket` when the
bucket already exists. -/
inductive GcsError where
  | conflict
  deriving DecidableEq

/-- A client-side bucket handle (`storage_client.bucket(name)`). -/
structure Bucket where
  name : String
  deriving DecidableEq

/-- The provider's `create_bucket`, over an explicit state listing the
names of existing buckets: a conflict when the name exists, otherwise the
new handle and the grown state. -/
def gcs_create_bucket (st : List String) (b : Bucket) :
    Except GcsError (Bucket × List String) :=
  if b.name ∈ st then .error .conflict else .ok (b, b.name :: st)

/-- `create_bucket_if_not_exists` (`gcp/storage.py` lines 18-30): try the
create, and on `Conflict` return the pre-constructed handle for the
existing bucket instead of propagating. -/
def create_bucket_if_not_exists (st : List String) (bucket_name : String) :
    Except GcsError (Bucket × List String) :=
  let bucket : Bucket := ⟨bucket_name⟩
  match gcs_create_bucket st bucket with
  | .ok r => .ok r
  | .error .conflict => .ok (bucket, st)

/-! ## Lemmas and concrete fixtures -/

/-- Spec-side rendering of the instance-name rule: the `unique_id` "with
every underscore replaced by a hyphen". -/
def underscoresToHyphens (s : String) : String :=
  ⟨s.data.map (fun c => if c = '_' then '-' else c)⟩

theorem pyReplace_single (a b : Char) : ∀ l : List Char,
    pyReplace [a] [b] l = l.map (fun c => if c = a then b else c)
  | [] => by simp [pyReplace, pyReplaceGo]
  | c :: rest => by
    have ih := pyReplace_single a b rest
    simp only [pyReplace] at ih ⊢
    by_cases hc : c = a
    · subst hc
      simp [pyReplaceGo, List.isPrefixOf, ih]
    · simp [pyReplaceGo, List.isPrefixOf, hc, Ne.symm hc, ih]

/-- The source's `unique_id.replace("_", "-")` agrees with the spec's
"every underscore replaced by a hyphen". -/
theorem pyReplaceStr_underscore (s : String) :
    pyReplaceStr s "_" "-" = underscoresToHyphens s :=
  congrArg String.mk (pyReplace_single '_' '-' s.data)

/-- A total filesystem fixture: every path reads as a small template. -/
def envT : Env :=
  { fs := fun _ => some "FROM $BASE_IMAGE\n"
    alloc := fun _ => "1.2.3.4"
    token := "tok" }

/-- A client fixture whose `unique_id` contains an underscore. -/
def clientT : Client :=
  { project := some "proj", zone := "us-central1-a", unique_id := "u_1"
    region := "us-central1", static_ip := none }

/-- A predictor fixture. -/
def predictorT : Predictor := { file_path := "pred.py", entrypoint := "Pred" }

/-- Launch arguments with every defaultable parameter left at its default. -/
def argsT : LaunchArgs :=
  { predictor := predictorT, domain := "lol.com", password := "pw" }

/-- A throwaway result used only to name the concrete launch result. -/
def dummyResult : LaunchResult :=
  { client := clientT, trace := [], bucket_name := "", instance_name := ""
    static_ip_name := "", topic := "", function_name := ""
    static_ip_used := "", startup_script := "", shutdown_script := ""
    requirements_metadata := "", docker_metadata := "", compose_metadata := ""
    nginx_metadata := "", username := "", password := "" }

/-- The concrete result of launching the fixtures. -/
def resT : LaunchResult := (launch envT clientT argsT).getD dummyResult

/-! ## The claims -/

/-- C1: the spec requires a fresh random `password` per `launch` /
`launch_local` invocation and a fresh `unique_id` per client construction
when the caller supplies none.  The code binds each `str(uuid4())` default
once, at class-definition time (`main.py` lines 28, 262, 381), so every
defaulted invocation of `launch` shares the single definition-time draw
`gen 1`, every defaulted `launch_local` invocation shares `gen 2`, and
every defaulted client shares `gen 0`: two defaulted invocations can never
yield distinct values, contradicting the claim. -/
theorem claim_C1 (gen : Nat → String) (i j : Nat) :
    launchPasswordOf gen i none = launchPasswordOf gen j none ∧
    launchPasswordOf gen i none = gen 1 ∧
    launchLocalPasswordOf gen i none = launchLocalPasswordOf gen j none ∧
    launchLocalPasswordOf gen i none = gen 2 ∧
    clientUniqueId gen i none = clientUniqueId gen j none ∧
    clientUniqueId gen i none = gen 0 :=
  ⟨rfl, rfl, rfl, rfl, rfl, rfl⟩

/-- C2: with defaulted names every derived resource name is the stated
function of `unique_id` alone — `budget_bucket_` + id for the bucket,
`budget-instance-` + id with underscores turned to hyphens for the
instance, and `ip-` / `topic-` / `function-` prefixes of the instance name
— and repeated derivation from the same `unique_id` yields the same
names. -/
theorem claim_C2 (env : Env) (c : Client) (a : LaunchArgs) (r : LaunchResult)
    (h : launch env c a = some r) (hb : a.bucket_name = none)
    (hi : a.instance_name = none) :
    r.bucket_name = "budget_bucket_" ++ c.unique_id ∧
    r.instance_name = "budget-instance-" ++ underscoresToHyphens c.unique_id ∧
    r.static_ip_name = "ip-" ++ r.instance_name ∧
    r.topic = "topic-" ++ r.instance_name ∧
    r.function_name = "function-" ++ r.instance_name ∧
    (∀ env' a' r', launch env' c a' = some r' → a'.bucket_name = none →
      a'.instance_name = none →
      r'.bucket_name = r.bucket_name ∧ r'.instance_name = r.instance_name ∧
      r'.static_ip_name = r.static_ip_name ∧ r'.topic = r.topic ∧
      r'.function_name = r.function_name) := by
  obtain ⟨d, q, p, n, _, _, _, _, rfl⟩ := launch_some env c a r h
  have base : ∀ (env₀ : Env) (a₀ : LaunchArgs) d₀ q₀ p₀ n₀,
      a₀.bucket_name = none → a₀.instance_name = none →
      (launchResultOf env₀ c a₀ d₀ q₀ p₀ n₀).bucket_name =
        "budget_bucket_" ++ c.unique_id ∧
      (launchResultOf env₀ c a₀ d₀ q₀ p₀ n₀).instance_name =
        "budget-instance-" ++ underscoresToHyphens c.unique_id ∧
      (launchResultOf env₀ c a₀ d₀ q₀ p₀ n₀).static_ip_name =
        "ip-" ++ (launchResultOf env₀ c a₀ d₀ q₀ p₀ n₀).instance_name ∧
      (launchResultOf env₀ c a₀ d₀ q₀ p₀ n₀).topic =
        "topic-" ++ (launchResultOf env₀ c a₀ d₀ q₀ p₀ n₀).instance_name ∧
      (launchResultOf env₀ c a₀ d₀ q₀ p₀ n₀).function_name =
        "function-" ++ (launchResultOf env₀ c a₀ d₀ q₀ p₀ n₀).instance_name := by
    intro env₀ a₀ d₀ q₀ p₀ n₀ hb₀ hi₀
    simp [launchResultOf, launchBucketName, launchInstanceName,
      launchStaticIpName, launchTopic, create_cloud_function, hb₀, hi₀,
      pyReplaceStr_underscore]
  obtain ⟨e1, e2, e3, e4, e5⟩ := base env a d q p n hb hi
  refine ⟨e1, e2, e3, e4, e5, ?_⟩
  intro env' a' r' h' hb' hi'
  obtain ⟨d', q', p', n', _, _, _, _, rfl⟩ := launch_some env' c a' r' h'
  obtain ⟨f1, f2, f3, f4, f5⟩ := base env' a' d' q' p' n' hb' hi'
  exact ⟨f1.trans e1.symm, f2.trans e2.symm,
    by rw [f3, e3, f2, e2],
    by rw [f4, e4, f2, e2],
    by rw [f5, e5, f2, e2]⟩

/-- C2 witness: the fixture launch derives the expected names. -/
theorem claim_C2_witness :
    launch envT clientT argsT = some resT ∧ argsT.bucket_name = none ∧
    argsT.instance_name = none ∧
    resT.bucket_name = "budget_bucket_u_1" ∧
    resT.instance_name = "budget-instance-u-1" := by
  have h : launch envT clientT argsT = some resT := rfl
  have := claim_C2 envT clientT argsT resT h rfl rfl
  exact ⟨h, rfl, rfl, by rw [this.1]; rfl, by rw [this.2.1]; rfl⟩

/-- C3: the requirements rendering has exactly three input modes — `None`
yields the empty string, a path yields the file contents verbatim, and a
list yields the newline-join of its items; joining a non-empty list of
newline-free items and splitting on newlines recovers exactly the items
(order and count preserved), so two items give exactly two lines. -/
theorem claim_C3 (fs : String → Option String) :
    requirements_contents fs .nothing = some "" ∧
    (∀ p c, fs p = some c → requirements_contents fs (.path p) = some c) ∧
    (∀ items, requirements_contents fs (.list items) =
      some (joinLines items)) ∧
    (∀ items, items ≠ [] → (∀ x ∈ items, '\n' ∉ x.data) →
      splitLines (joinLines items).data = items.map String.data) := by
  refine ⟨rfl, ?_, fun _ => rfl, fun items h1 h2 => splitLines_joinLines items h1 h2⟩
  intro p c hc
  simp [requirements_contents, get_requirements_file_contents, hc]

/-- C3 witness: a two-item list renders as exactly two lines in order. -/
theorem claim_C3_witness :
    requirements_contents (fun _ => some "numpy==1.19.0\nfastapi") .nothing =
      some "" ∧
    requirements_contents (fun _ => some "numpy==1.19.0\nfastapi")
      (.path "r.txt") = some "numpy==1.19.0\nfastapi" ∧
    requirements_contents (fun _ => some "numpy==1.19.0\nfastapi")
      (.list ["numpy==1.19.0", "fastapi"]) = some "numpy==1.19.0\nfastapi" ∧
    splitLines (joinLines ["numpy==1.19.0", "fastapi"]).data =
      ["numpy==1.19.0".data, "fastapi".data] := by
  have h := claim_C3 (fun _ => some "numpy==1.19.0\nfastapi")
  exact ⟨h.1, h.2.1 "r.txt" _ rfl, h.2.2.1 _,
    h.2.2.2 ["numpy==1.19.0", "fastapi"] (by decide) (by decide)⟩

/-- C4: base64-encoding a payload exactly as `launch` does for the four
metadata payloads (`encodePayload`, UTF-8 then base64) and then
base64-decoding recovers the original payload's bytes exactly, for every
payload string, newlines and placeholder markers included. -/
theorem claim_C4 (payload : String) :
    b64decode (encodePayload payload).data = some (strBytes payload) :=
  b64_roundtrip (strBytes payload) (strBytes_lt payload)

/-- C5: when the first `create_bucket_if_not_exists` created the bucket, a
second call with the same name sees the provider conflict, treats it as
success, and returns (without raising) a handle with the same name as the
first call's handle. -/
theorem claim_C5 (st : List String) (name : String) (h : name ∉ st) :
    create_bucket_if_not_exists st name = .ok (⟨name⟩, name :: st) ∧
    create_bucket_if_not_exists (name :: st) name = .ok (⟨name⟩, name :: st) := by
  constructor
  · simp [create_bucket_if_not_exists, gcs_create_bucket, h]
  · simp [create_bucket_if_not_exists, gcs_create_bucket]

/-- C5 witness: creating `budget_bucket_u_1` twice from the empty state. -/
theorem claim_C5_witness :
    ("budget_bucket_u_1" ∉ ([] : List String)) ∧
    (create_bucket_if_not_exists [] "budget_bucket_u_1" =
      .ok (⟨"budget_bucket_u_1"⟩, ["budget_bucket_u_1"]) ∧
     create_bucket_if_not_exists ["budget_bucket_u_1"] "budget_bucket_u_1" =
      .ok (⟨"budget_bucket_u_1"⟩, ["budget_bucket_u_1"])) :=
  ⟨by decide, claim_C5 [] "budget_bucket_u_1" (by decide)⟩

/-- C6: in every successful launch the topic-creation call precedes the
watchdog-function creation call and the scheduled-job creation call, and
the compute-instance creation call is the last resource-creating call of
the trace (and the only instance creation). -/
theorem claim_C6 (env : Env) (c : Client) (a : LaunchArgs) (r : LaunchResult)
    (h : launch env c a = some r) :
    ∃ t1 t2 t3 t4 : List Event,
      r.trace = t1 ++ [Event.createTopic r.topic] ++ t2 ++
        [Event.createFunction r.function_name] ++ t3 ++
        [Event.createSchedulerJob r.topic] ++ t4 ++
        [Event.createInstance r.instance_name] ∧
      r.trace.countP Event.isCreateInstance = 1 := by
  obtain ⟨d, q, p, n, _, _, _, _, rfl⟩ := launch_some env c a r h
  refine ⟨launchIpEvents c a ++ [Event.createBucket (launchBucketName c a)],
    [Event.uploadFunctionSource], [],
    [Event.uploadBlob (launchBucketName c a)
      (predictor_gcs_path c.unique_id a.predictor.entrypoint)], ?_, ?_⟩
  · simp [launchResultOf, create_cloud_function, create_start_up,
      predictor_gcs_path]
  · cases hip : a.static_ip <;>
      simp [launchResultOf, create_cloud_function, create_start_up,
        launchIpEvents, hip, Event.isCreateInstance]

/-- C6 witness: the fixture launch's trace decomposes as stated. -/
theorem claim_C6_witness :
    launch envT clientT argsT = some resT ∧
    (∃ t1 t2 t3 t4 : List Event,
      resT.trace = t1 ++ [Event.createTopic resT.topic] ++ t2 ++
        [Event.createFunction resT.function_name] ++ t3 ++
        [Event.createSchedulerJob resT.topic] ++ t4 ++
        [Event.createInstance resT.instance_name] ∧
      resT.trace.countP Event.isCreateInstance = 1) :=
  ⟨rfl, claim_C6 envT clientT argsT resT rfl⟩

/-- C7: if the caller supplies `static_ip`, no allocation call appears in
the trace and the supplied address is the one the instance uses; if not,
exactly one static IP is allocated, under the derived name
`ip-instance_name`, and its address is the one the instance uses. -/
theorem claim_C7 (env : Env) (c : Client) (a : LaunchArgs) (r : LaunchResult)
    (h : launch env c a = some r) :
    (∀ s, a.static_ip = some s →
      r.trace.countP Event.isCreateStaticIP = 0 ∧
      r.static_ip_used = s ∧ r.client.static_ip = some s) ∧
    (a.static_ip = none →
      r.trace.countP Event.isCreateStaticIP = 1 ∧
      Event.createStaticIP ("ip-" ++ r.instance_name) ∈ r.trace ∧
      r.static_ip_used = env.alloc ("ip-" ++ r.instance_name) ∧
      r.client.static_ip = some r.static_ip_used) := by
  obtain ⟨d, q, p, n, _, _, _, _, rfl⟩ := launch_some env c a r h
  constructor
  · intro s hs
    refine ⟨?_, ?_, ?_⟩ <;>
      simp [launchResultOf, launchIpEvents, launchStaticIpUsed, hs,
        create_cloud_function, create_start_up, Event.isCreateStaticIP]
  · intro hs
    refine ⟨?_, ?_, ?_, ?_⟩ <;>
      simp [launchResultOf, launchIpEvents, launchStaticIpUsed,
        launchStaticIpName, hs, create_cloud_function, create_start_up,
        Event.isCreateStaticIP]

/-- C7 witness: the fixture launch supplies no static IP, so exactly one
allocation happens under the derived name and its address is used. -/
theorem claim_C7_witness :
    launch envT clientT argsT = some resT ∧ argsT.static_ip = none ∧
    (resT.trace.countP Event.isCreateStaticIP = 1 ∧
     Event.createStaticIP ("ip-" ++ resT.instance_name) ∈ resT.trace ∧
     resT.static_ip_used = envT.alloc ("ip-" ++ resT.instance_name) ∧
     resT.client.static_ip = some resT.static_ip_used) :=
  ⟨rfl, rfl, (claim_C7 envT clientT argsT resT rfl).2 rfl⟩

theorem data_append (a b : String) : (a ++ b).data = a.data ++ b.data := by
  rw [String.congr_append]

set_option maxRecDepth 40000

/-- C8 counterexample: the claim says every client field, `static_ip`
included, holds after `launch` the value it held before; on the fixture
client (whose `static_ip` is `none`) the launch overwrites `static_ip`
with the freshly allocated address, so the field differs. -/
theorem claim_C8_counterexample :
    launch envT clientT argsT = some resT ∧
    clientT.static_ip = none ∧
    resT.client.static_ip = some "1.2.3.4" ∧
    resT.client.static_ip ≠ clientT.static_ip :=
  ⟨rfl, rfl, by decide, by decide⟩

/-- C8 (amended): invocations of `launch` share no mutable client state
other than `unique_id` and `static_ip`: after a launch, `project`, `zone`,
`region` and `unique_id` are unchanged, while `static_ip` is overwritten
with the address used for the instance. -/
theorem claim_C8 (env : Env) (c : Client) (a : LaunchArgs) (r : LaunchResult)
    (h : launch env c a = some r) :
    r.client.project = c.project ∧ r.client.zone = c.zone ∧
    r.client.region = c.region ∧ r.client.unique_id = c.unique_id ∧
    r.client.static_ip = some r.static_ip_used := by
  obtain ⟨d, q, p, n, _, _, _, _, rfl⟩ := launch_some env c a r h
  refine ⟨?_, ?_, ?_, ?_, ?_⟩ <;> simp [launchResultOf]

/-- C8 witness: the fixture launch leaves the four fields unchanged and
records the used address. -/
theorem claim_C8_witness :
    launch envT clientT argsT = some resT ∧
    (resT.client.project = clientT.project ∧
     resT.client.zone = clientT.zone ∧
     resT.client.region = clientT.region ∧
     resT.client.unique_id = clientT.unique_id ∧
     resT.client.static_ip = some resT.static_ip_used) :=
  ⟨rfl, claim_C8 envT clientT argsT resT rfl⟩

/-- C9 counterexample: the claim says the startup script of an
all-defaults launch contains the literal derived instance name; on the
fixture launch (all name parameters defaulted, `unique_id = "u_1"`) the
derived instance name `budget-instance-u-1` does not occur anywhere in
the startup script — only the shutdown script embeds it, via the topic. -/
theorem claim_C9_counterexample :
    launch envT clientT argsT = some resT ∧
    argsT.instance_name = none ∧
    resT.instance_name = "budget-instance-u-1" ∧
    containsSub resT.instance_name.data resT.startup_script.data = false :=
  ⟨rfl, rfl, by decide, by decide⟩

/-- C9 (amended): a launch with defaulted `instance_name` derives
`budget-instance-` + `unique_id` with underscores turned to hyphens, uses
the topic `topic-` + instance name, and it is the shutdown script — not
the startup script — whose text contains the literal derived instance
name. -/
theorem claim_C9 (env : Env) (c : Client) (a : LaunchArgs) (r : LaunchResult)
    (h : launch env c a = some r) (hi : a.instance_name = none) :
    r.instance_name = "budget-instance-" ++ underscoresToHyphens c.unique_id ∧
    r.topic = "topic-" ++ r.instance_name ∧
    containsSub r.instance_name.data r.shutdown_script.data = true := by
  obtain ⟨d, q, p, n, _, _, _, _, rfl⟩ := launch_some env c a r h
  refine ⟨?_, ?_, ?_⟩
  · simp [launchResultOf, launchInstanceName, hi, pyReplaceStr_underscore]
  · simp [launchResultOf, launchTopic]
  · simp only [launchResultOf]
    have hc := containsSub_of_append (launchInstanceName c a).data
      (shutdownHead.data ++ "topic-".data) shutdownTail.data
    simpa [create_shut_down, launchTopic, data_append, List.append_assoc]
      using hc

/-- C9 witness: instantiating the amended claim at the fixtures. -/
theorem claim_C9_witness :
    launch envT clientT argsT = some resT ∧ argsT.instance_name = none ∧
    (resT.instance_name =
      "budget-instance-" ++ underscoresToHyphens clientT.unique_id ∧
     resT.topic = "topic-" ++ resT.instance_name ∧
     containsSub resT.instance_name.data resT.shutdown_script.data = true) :=
  ⟨rfl, rfl, claim_C9 envT clientT argsT resT rfl rfl⟩

/-- C10: supplying both `dockerfile_path` and a `requirements` list is not
an error — `launch` and `launch_local` both succeed (given the reads the
Dockerfile path needs), the Dockerfile content is determined by
`dockerfile_path` alone, the requirements content is the newline-join of
the list, and the list branch reads no file: its result is the same under
every filesystem. -/
theorem claim_C10 (env : Env) (c : Client) (a : LaunchArgs)
    (items : List String) (dp dc pc nc : String)
    (hr : a.requirements = .list items) (hd : a.dockerfile_path = some dp)
    (h1 : env.fs dp = some dc)
    (h2 : get_docker_compose_contents env.fs = some pc)
    (h3 : get_nginx_conf_contents env.fs a.domain a.subdomain = some nc) :
    (∃ r, launch env c a = some r ∧
      r.docker_metadata =
        encodePayload (pyReplaceStr dc "$BASE_IMAGE" BUDGETML_BASE_IMAGE_NAME) ∧
      r.requirements_metadata = encodePayload (joinLines items)) ∧
    (∃ res, launch_local env c a.predictor a.requirements a.dockerfile_path
        a.bucket_name a.username a.password = some res ∧
      res.docker_content =
        pyReplaceStr dc "$BASE_IMAGE" BUDGETML_BASE_IMAGE_NAME ∧
      res.requirements_content = joinLines items) ∧
    (∀ fs' : String → Option String,
      requirements_contents fs' (.list items) = some (joinLines items)) := by
  have e1 : get_docker_file_contents env.fs a.dockerfile_path =
      some (pyReplaceStr dc "$BASE_IMAGE" BUDGETML_BASE_IMAGE_NAME) := by
    rw [hd]
    simp [get_docker_file_contents, h1]
  have e2 : requirements_contents env.fs a.requirements =
      some (joinLines items) := by
    rw [hr]
    rfl
  refine ⟨?_, ?_, fun _ => rfl⟩
  · simp only [launch, e1, e2, h2, h3]
    exact ⟨_, rfl, rfl, rfl⟩
  · simp only [launch_local, e1, e2]
    exact ⟨_, rfl, rfl, rfl⟩

/-- Launch arguments supplying both a Dockerfile path and a
requirements list. -/
def argsBoth : LaunchArgs :=
  { predictor := predictorT, domain := "lol.com", password := "pw"
    requirements := .list ["numpy==1.19.0", "fastapi"]
    dockerfile_path := some "my.Dockerfile" }

/-- C10 witness: both parameters supplied on the fixtures. -/
theorem claim_C10_witness :
    argsBoth.requirements = Requirements.list ["numpy==1.19.0", "fastapi"] ∧
    argsBoth.dockerfile_path = some "my.Dockerfile" ∧
    envT.fs "my.Dockerfile" = some "FROM $BASE_IMAGE\n" ∧
    get_docker_compose_contents envT.fs = some "FROM $BASE_IMAGE\n" ∧
    get_nginx_conf_contents envT.fs argsBoth.domain argsBoth.subdomain =
      some "FROM $BASE_IMAGE\n" ∧
    ((∃ r, launch envT clientT argsBoth = some r ∧
      r.docker_metadata = encodePayload (pyReplaceStr "FROM $BASE_IMAGE\n"
        "$BASE_IMAGE" BUDGETML_BASE_IMAGE_NAME) ∧
      r.requirements_metadata =
        encodePayload (joinLines ["numpy==1.19.0", "fastapi"])) ∧
    (∃ res, launch_local envT clientT argsBoth.predictor argsBoth.requirements
        argsBoth.dockerfile_path argsBoth.bucket_name argsBoth.username
        argsBoth.password = some res ∧
      res.docker_content = pyReplaceStr "FROM $BASE_IMAGE\n" "$BASE_IMAGE"
        BUDGETML_BASE_IMAGE_NAME ∧
      res.requirements_content = joinLines ["numpy==1.19.0", "fastapi"]) ∧
    (∀ fs' : String → Option String,
      requirements_contents fs' (.list ["numpy==1.19.0", "fastapi"]) =
        some (joinLines ["numpy==1.19.0", "fastapi"]))) :=
  ⟨rfl, rfl, rfl, rfl, by decide,
    claim_C10 envT clientT argsBoth ["numpy==1.19.0", "fastapi"]
      "my.Dockerfile" "FROM $BASE_IMAGE\n" "FROM $BASE_IMAGE\n"
      "FROM $BASE_IMAGE\n" rfl rfl rfl rfl (by decide)⟩

end BudgetML
